import Mathlib

/-!
Verification development for the autonomous-feedback-loop repository:
a shallow embedding of `feedback_loopconfig.py` and
`feedback_loopstorage_manager.py`, followed by theorems settling the
specification's claims about them.
-/

namespace FeedbackLoop

/-! ### Embedding of `feedback_loopconfig.py` -/

/-- `FirebaseConfig` dataclass: four string credential fields. -/
structure FirebaseConfig where
  project_id : String
  private_key : String
  client_email : String
  database_url : String
deriving Repr, DecidableEq

/-- `self.__dict__.items()` of a `FirebaseConfig` instance: field
name/value pairs in declaration order. -/
def FirebaseConfig.fieldValues (c : FirebaseConfig) : List (String × String) :=
  [("project_id", c.project_id), ("private_key", c.private_key),
   ("client_email", c.client_email), ("database_url", c.database_url)]

/-- The `missing` list built by `FirebaseConfig.__post_init__`: names of
fields whose value is falsy (the empty string), in encounter order. -/
def missingFields (c : FirebaseConfig) : List String :=
  (c.fieldValues.filter (fun fv => fv.2 == "")).map Prod.fst

/-- Constructing a `FirebaseConfig` with explicit arguments, running
`__post_init__`: raises `ValueError` (modelled as `Except.error` carrying
the message) when any field is empty, else returns the object. -/
def mkFirebaseConfig (project_id private_key client_email database_url : String) :
    Except String FirebaseConfig :=
  let c : FirebaseConfig :=
    ⟨project_id, private_key, client_email, database_url⟩
  let missing := missingFields c
  if missing.isEmpty then
    Except.ok c
  else
    Except.error ("Missing Firebase configs: " ++ String.intercalate ", " missing)

/-- `os.getenv(name, default)` over an environment `env`. -/
def getenv (env : String → Option String) (name default : String) : String :=
  (env name).getD default

/-- `.replace('\\n', '\n')` on the character list: every literal
backslash-n two-character sequence is replaced, left to right and
non-overlapping, by a newline character. -/
def replaceBackslashN : List Char → List Char
  | [] => []
  | '\\' :: 'n' :: rest => '\n' :: replaceBackslashN rest
  | c :: rest => c :: replaceBackslashN rest

/-- `s.replace('\\n', '\n')` on strings. -/
def normalizePrivateKey (s : String) : String :=
  String.mk (replaceBackslashN s.data)

/-- Constructing `FirebaseConfig()` with no arguments: each field takes
its dataclass default, read from the environment, with the private key
normalized by `.replace('\\n', '\n')`. -/
def mkFirebaseConfigFromEnv (env : String → Option String) :
    Except String FirebaseConfig :=
  mkFirebaseConfig
    (getenv env "FIREBASE_PROJECT_ID" "")
    (normalizePrivateKey (getenv env "FIREBASE_PRIVATE_KEY" ""))
    (getenv env "FIREBASE_CLIENT_EMAIL" "")
    (getenv env "FIREBASE_DATABASE_URL" "")

/-- The `MetricType` enum of `feedback_loopconfig.py`. -/
inductive MetricType where
  | response_time
  | error_rate
  | memory_usage
  | cpu_usage
  | throughput
  | latency
  | success_rate
deriving Repr, DecidableEq

/-- A warning/critical numeric pair, one inner `Dict[str, float]` of the
threshold table (numeric literals modelled exactly as rationals). -/
structure Threshold where
  warning : Rat
  critical : Rat
deriving Repr, DecidableEq

/-- `LoopConfig` dataclass. `performance_thresholds` is a Python dict
keyed by `MetricType`, modelled as an insertion-ordered association
list; the dataclass default `None` is modelled by `Option`. -/
structure LoopConfig where
  collection_interval_seconds : Int
  analysis_window_minutes : Int
  anomaly_threshold_stddev : Rat
  corrective_action_cooldown_seconds : Int
  max_concurrent_actions : Int
  retention_days : Int
  performance_thresholds : List (MetricType × Threshold)
deriving Repr, DecidableEq

/-- The default threshold table assigned by `LoopConfig.__post_init__`,
in source insertion order. -/
def defaultThresholds : List (MetricType × Threshold) :=
  [(MetricType.response_time, ⟨1, 3⟩),
   (MetricType.error_rate, ⟨1/100, 5/100⟩),
   (MetricType.memory_usage, ⟨70, 85⟩),
   (MetricType.cpu_usage, ⟨75, 90⟩),
   (MetricType.success_rate, ⟨95, 90⟩)]

/-- Constructing a `LoopConfig` and running `__post_init__`: the default
table is substituted exactly when `performance_thresholds is None`. -/
def mkLoopConfig (collection_interval_seconds analysis_window_minutes : Int)
    (anomaly_threshold_stddev : Rat)
    (corrective_action_cooldown_seconds max_concurrent_actions retention_days : Int)
    (performance_thresholds : Option (List (MetricType × Threshold))) : LoopConfig :=
  { collection_interval_seconds := collection_interval_seconds
    analysis_window_minutes := analysis_window_minutes
    anomaly_threshold_stddev := anomaly_threshold_stddev
    corrective_action_cooldown_seconds := corrective_action_cooldown_seconds
    max_concurrent_actions := max_concurrent_actions
    retention_days := retention_days
    performance_thresholds :=
      match performance_thresholds with
      | none => defaultThresholds
      | some m => m }

/-- `LoopConfig()` with all defaults:
`collection_interval_seconds=30, analysis_window_minutes=60,
anomaly_threshold_stddev=2.5, corrective_action_cooldown_seconds=300,
max_concurrent_actions=3, retention_days=30,
performance_thresholds=None`. -/
def defaultLoopConfig : LoopConfig :=
  mkLoopConfig 30 60 (5/2) 300 3 30 none

/-! ### Embedding of `feedback_loopstorage_manager.py` -/

/-- A naive `datetime` value, as produced by `datetime.utcnow()`
(no timezone information). -/
structure Datetime where
  year : Nat
  month : Nat
  day : Nat
  hour : Nat
  minute : Nat
  second : Nat
  microsecond : Nat
deriving Repr, DecidableEq

/-- Decimal rendering of `n` left-padded with zeros to width `w`. -/
def padNum (w n : Nat) : String :=
  let s := toString n
  String.mk (List.replicate (w - s.length) '0') ++ s

/-- Python `datetime.isoformat()` for a naive datetime:
`YYYY-MM-DDTHH:MM:SS`, with `.ffffff` appended when the microsecond
field is nonzero. -/
def Datetime.isoformat (d : Datetime) : String :=
  padNum 4 d.year ++ "-" ++ padNum 2 d.month ++ "-" ++ padNum 2 d.day ++
  "T" ++ padNum 2 d.hour ++ ":" ++ padNum 2 d.minute ++ ":" ++ padNum 2 d.second ++
  (if d.microsecond = 0 then "" else "." ++ padNum 6 d.microsecond)

/-- Python values as they appear inside the serialized documents. -/
inductive PyValue where
  | str : String → PyValue
  | num : Rat → PyValue
  | dt : Datetime → PyValue
  | dictV : List (String × PyValue) → PyValue
  | listV : List PyValue → PyValue
  | noneV : PyValue

/-- `PerformanceMetric` Pydantic model. -/
structure PerformanceMetric where
  metric_id : String
  metric_type : String
  value : Rat
  timestamp : Datetime
  source : String
  metadata : List (String × PyValue)
  tags : List String

/-- `metric.dict()`: the Pydantic field dictionary, fields in
declaration order, the timestamp still a `datetime` object. -/
def PerformanceMetric.dict (m : PerformanceMetric) : List (String × PyValue) :=
  [("metric_id", PyValue.str m.metric_id),
   ("metric_type", PyValue.str m.metric_type),
   ("value", PyValue.num m.value),
   ("timestamp", PyValue.dt m.timestamp),
   ("source", PyValue.str m.source),
   ("metadata", PyValue.dictV m.metadata),
   ("tags", PyValue.listV (m.tags.map PyValue.str))]

/-- Python dict assignment `d[k] = v`: replaces the value in place when
the key is present, otherwise appends the pair. -/
def dictSet (d : List (String × PyValue)) (k : String) (v : PyValue) :
    List (String × PyValue) :=
  if d.any (fun p => p.1 == k) then
    d.map (fun p => if p.1 == k then (k, v) else p)
  else
    d ++ [(k, v)]

/-- The serialization step of `StorageManager.store_metric`:
`metric_dict = metric.dict(); metric_dict['timestamp'] = metric.timestamp.isoformat()`. -/
def storeMetricSerialize (m : PerformanceMetric) : List (String × PyValue) :=
  dictSet m.dict "timestamp" (PyValue.str m.timestamp.isoformat)

/-- `CorrectiveAction` Pydantic model. -/
structure CorrectiveAction where
  action_id : String
  action_type : String
  trigger_metric_id : String
  parameters : List (String × PyValue)
  status : String
  created_at : Datetime
  executed_at : Option Datetime
  result : Option (List (String × PyValue))
  error : Option String

/-- Constructing a `CorrectiveAction` supplying only the required fields
`action_id`, `action_type`, `trigger_metric_id`, `parameters`; every
other field takes its declared default (`created_at` defaults to
`datetime.utcnow()`, passed in as `now`). -/
def CorrectiveAction.mkRequired (action_id action_type trigger_metric_id : String)
    (parameters : List (String × PyValue)) (now : Datetime) : CorrectiveAction :=
  { action_id := action_id
    action_type := action_type
    trigger_metric_id := trigger_metric_id
    parameters := parameters
    status := "pending"
    created_at := now
    executed_at := none
    result := none
    error := none }

/-- Exceptions arising while initializing the external client:
a `ValueError` (the shape firebase-admin raises for an
already-initialized app) or any other exception. -/
inductive PyError where
  | valueError : String → PyError
  | otherError : String → PyError
deriving Repr, DecidableEq

/-- Log lines emitted by the storage manager's logger. -/
inductive LogEvent where
  | info : String → LogEvent
  | warning : String → LogEvent
  | error : String → LogEvent
deriving Repr, DecidableEq

/-- The `try` body of `StorageManager._initialize_firebase`: when
`firebase_admin._apps` is empty, build the certificate and call
`initialize_app` (its outcome supplied by the environment as
`initApp`), logging success; when apps already exist, do nothing. -/
def initFirebaseTryBody (appsNonEmpty : Bool) (initApp : Except PyError Unit) :
    Except PyError (List LogEvent) :=
  if appsNonEmpty then
    Except.ok []
  else
    match initApp with
    | Except.ok _ => Except.ok [LogEvent.info "Firebase initialized successfully"]
    | Except.error e => Except.error e

/-- `StorageManager._initialize_firebase` with its exception handlers:
returns the log lines emitted and the exception propagated to the
caller (`none` when the method returns normally). A `ValueError` is
logged as a warning and swallowed; any other exception is logged as an
error and re-raised. -/
def initializeFirebase (appsNonEmpty : Bool) (initApp : Except PyError Unit) :
    List LogEvent × Option PyError :=
  match initFirebaseTryBody appsNonEmpty initApp with
  | Except.ok logs => (logs, none)
  | Except.error (PyError.valueError msg) =>
      ([LogEvent.warning ("Firebase already initialized: " ++ msg)], none)
  | Except.error (PyError.otherError msg) =>
      ([LogEvent.error ("Failed to initialize Firebase: " ++ msg)],
       some (PyError.otherError msg))

/-! Spec-side rendering, for comparison with `mkFirebaseConfig`: the
names of exactly the empty fields, in field declaration order. -/

/-- Follows the spec's words: the subset of
`{project_id, private_key, client_email, database_url}` whose supplied
value is empty, listed in field declaration order. -/
def specEmptyFieldNames (project_id private_key client_email database_url : String) :
    List String :=
  (if project_id = "" then ["project_id"] else []) ++
  (if private_key = "" then ["private_key"] else []) ++
  (if client_email = "" then ["client_email"] else []) ++
  (if database_url = "" then ["database_url"] else [])

/-! ### Helper lemmas -/

/-- The `missing` list of `__post_init__` is exactly the names of the
empty fields, in declaration order. -/
theorem missingFields_eq_spec (p k e u : String) :
    missingFields ⟨p, k, e, u⟩ = specEmptyFieldNames p k e u := by
  by_cases hp : p = "" <;> by_cases hk : k = "" <;>
    by_cases he : e = "" <;> by_cases hu : u = "" <;>
    simp [missingFields, FirebaseConfig.fieldValues, specEmptyFieldNames,
      hp, hk, he, hu]

/-- When construction succeeds, the returned object holds the four
supplied values verbatim. -/
theorem mkFirebaseConfig_ok_eq (p k e u : String) (cfg : FirebaseConfig)
    (h : mkFirebaseConfig p k e u = Except.ok cfg) :
    cfg = ⟨p, k, e, u⟩ := by
  by_cases hc : (missingFields ⟨p, k, e, u⟩).isEmpty = true
  · simp only [mkFirebaseConfig, hc, if_true] at h
    exact (Except.ok.injEq _ _).mp h.symm
  · simp only [mkFirebaseConfig, hc, if_false] at h
    exact absurd h (by simp)

/-- A concrete environment used to instantiate hypotheses. -/
def exampleEnv : String → Option String := fun name =>
  if name = "FIREBASE_PROJECT_ID" then some "proj"
  else if name = "FIREBASE_PRIVATE_KEY" then some "line1\\nline2"
  else if name = "FIREBASE_CLIENT_EMAIL" then some "mail"
  else if name = "FIREBASE_DATABASE_URL" then some "url"
  else none

/-! ### Claims -/

/-- C1: for every subset of the four credential fields, constructing a
`FirebaseConfig` with exactly that subset empty raises a `ValueError`
whose message lists exactly the names of the empty fields, in field
declaration order, and no other field names. -/
theorem mkFirebaseConfig_error_lists_missing (p k e u : String)
    (h : specEmptyFieldNames p k e u ≠ []) :
    mkFirebaseConfig p k e u =
      Except.error ("Missing Firebase configs: " ++
        String.intercalate ", " (specEmptyFieldNames p k e u)) := by
  have hm := missingFields_eq_spec p k e u
  have hne : (specEmptyFieldNames p k e u).isEmpty = false :=
    List.isEmpty_eq_false.mpr h
  simp only [mkFirebaseConfig, hm, hne, Bool.false_eq_true, if_false]

/-- Witness for C1: with `project_id` empty and the other three fields
non-empty, the message mentions `project_id` and no other field. -/
theorem mkFirebaseConfig_error_lists_missing_witness :
    mkFirebaseConfig "" "x" "y" "z" =
      Except.error "Missing Firebase configs: project_id" := by
  have h := mkFirebaseConfig_error_lists_missing "" "x" "y" "z" (by decide)
  rw [h]
  rfl

/-- C2: constructing a `LoopConfig` without an explicit threshold map
yields a map whose keys are exactly the five predefined metric kinds
with their documented warning/critical pairs; throughput and latency
are absent. -/
theorem mkLoopConfig_default_thresholds (ci aw : Int) (ath : Rat)
    (cd mca rd : Int) :
    ((mkLoopConfig ci aw ath cd mca rd none).performance_thresholds.map
        Prod.fst =
      [MetricType.response_time, MetricType.error_rate,
       MetricType.memory_usage, MetricType.cpu_usage,
       MetricType.success_rate]) ∧
    (mkLoopConfig ci aw ath cd mca rd none).performance_thresholds.lookup
        MetricType.response_time = some ⟨1, 3⟩ ∧
    (mkLoopConfig ci aw ath cd mca rd none).performance_thresholds.lookup
        MetricType.error_rate = some ⟨1/100, 5/100⟩ ∧
    (mkLoopConfig ci aw ath cd mca rd none).performance_thresholds.lookup
        MetricType.memory_usage = some ⟨70, 85⟩ ∧
    (mkLoopConfig ci aw ath cd mca rd none).performance_thresholds.lookup
        MetricType.cpu_usage = some ⟨75, 90⟩ ∧
    (mkLoopConfig ci aw ath cd mca rd none).performance_thresholds.lookup
        MetricType.success_rate = some ⟨95, 90⟩ ∧
    (mkLoopConfig ci aw ath cd mca rd none).performance_thresholds.lookup
        MetricType.throughput = none ∧
    (mkLoopConfig ci aw ath cd mca rd none).performance_thresholds.lookup
        MetricType.latency = none :=
  ⟨rfl, rfl, rfl, rfl, rfl, rfl, rfl, rfl⟩

/-- C3: the serialization step of `store_metric` renders the timestamp
as its ISO-8601 string and passes every other field through
unchanged, keeping the field order of the model. -/
theorem storeMetricSerialize_fields (m : PerformanceMetric) :
    storeMetricSerialize m =
      [("metric_id", PyValue.str m.metric_id),
       ("metric_type", PyValue.str m.metric_type),
       ("value", PyValue.num m.value),
       ("timestamp", PyValue.str m.timestamp.isoformat),
       ("source", PyValue.str m.source),
       ("metadata", PyValue.dictV m.metadata),
       ("tags", PyValue.listV (m.tags.map PyValue.str))] := rfl

/-- C4 counterexample: re-initializing when the `_apps` registry is
already non-empty skips the body silently — the call returns normally
with an empty log list, so no warning is logged, refuting the claim
that a warning is logged whenever the client is already initialized. -/
theorem initializeFirebase_reinit_silent :
    initializeFirebase true (Except.ok ()) = ([], none) := rfl

/-- C4 (amended): when the external client is already initialized, the
storage initialization does not raise and the existing connection
continues to be used. When the `_apps` registry is non-empty the body
is skipped silently, with no warning logged; only when the
already-initialized condition surfaces as a `ValueError` from
`initialize_app` is a warning logged and the exception swallowed. -/
theorem initializeFirebase_idempotent (initApp : Except PyError Unit)
    (msg : String) :
    initializeFirebase true initApp = ([], none) ∧
    initializeFirebase false (Except.error (PyError.valueError msg)) =
      ([LogEvent.warning ("Firebase already initialized: " ++ msg)], none) :=
  ⟨rfl, rfl⟩

/-- C5: supplying all four credential fields non-empty constructs the
configuration object holding those values, without error. -/
theorem mkFirebaseConfig_ok (p k e u : String)
    (hp : p ≠ "") (hk : k ≠ "") (he : e ≠ "") (hu : u ≠ "") :
    mkFirebaseConfig p k e u = Except.ok ⟨p, k, e, u⟩ := by
  have hm := missingFields_eq_spec p k e u
  have hempty : missingFields ⟨p, k, e, u⟩ = [] := by
    rw [hm]
    simp [specEmptyFieldNames, hp, hk, he, hu]
  simp only [mkFirebaseConfig, hempty, List.isEmpty_nil, if_true]

/-- Witness for C5 at four concrete non-empty strings. -/
theorem mkFirebaseConfig_ok_witness :
    mkFirebaseConfig "a" "b" "c" "d" = Except.ok ⟨"a", "b", "c", "d"⟩ :=
  mkFirebaseConfig_ok "a" "b" "c" "d" (by decide) (by decide) (by decide)
    (by decide)

/-- C6: any initialization error other than the already-initialized
`ValueError` is logged and re-raised to the caller unchanged. -/
theorem initializeFirebase_reraises_other (msg : String) :
    initializeFirebase false (Except.error (PyError.otherError msg)) =
      ([LogEvent.error ("Failed to initialize Firebase: " ++ msg)],
       some (PyError.otherError msg)) := rfl

/-- C7: the private key taken from the `FIREBASE_PRIVATE_KEY`
environment variable is stored with every literal backslash-n sequence
replaced by a real newline. -/
theorem fromEnv_private_key_normalized (env : String → Option String)
    (cfg : FirebaseConfig)
    (h : mkFirebaseConfigFromEnv env = Except.ok cfg) :
    cfg.private_key =
      normalizePrivateKey ((env "FIREBASE_PRIVATE_KEY").getD "") := by
  have := mkFirebaseConfig_ok_eq _ _ _ _ _ h
  rw [this]
  rfl

/-- Witness for C7: a key containing a literal backslash-n is stored
with that sequence turned into a newline. -/
theorem fromEnv_private_key_normalized_witness :
    (mkFirebaseConfigFromEnv exampleEnv =
      Except.ok (FirebaseConfig.mk "proj" "line1\nline2" "mail" "url")) ∧
    (FirebaseConfig.mk "proj" "line1\nline2" "mail" "url").private_key =
      normalizePrivateKey ((exampleEnv "FIREBASE_PRIVATE_KEY").getD "") :=
  ⟨rfl, fromEnv_private_key_normalized exampleEnv _ rfl⟩

/-- C8: a `CorrectiveAction` constructed with only the required fields
has status `"pending"` and `executed_at`, `result`, `error` all
`None`. -/
theorem mkRequired_defaults (aid aty tmid : String)
    (params : List (String × PyValue)) (now : Datetime) :
    (CorrectiveAction.mkRequired aid aty tmid params now).status = "pending" ∧
    (CorrectiveAction.mkRequired aid aty tmid params now).executed_at = none ∧
    (CorrectiveAction.mkRequired aid aty tmid params now).result = none ∧
    (CorrectiveAction.mkRequired aid aty tmid params now).error = none :=
  ⟨rfl, rfl, rfl, rfl⟩

/-- C9: a `LoopConfig` constructed with an explicitly supplied
threshold map keeps it as given; in particular an explicitly empty map
stays empty, the default table being substituted only for `None`. -/
theorem mkLoopConfig_keeps_supplied (ci aw : Int) (ath : Rat)
    (cd mca rd : Int) (m : List (MetricType × Threshold)) :
    (mkLoopConfig ci aw ath cd mca rd (some m)).performance_thresholds = m ∧
    (mkLoopConfig ci aw ath cd mca rd
        (some [])).performance_thresholds = [] :=
  ⟨rfl, rfl⟩

/-- C10: a private key passed explicitly to the constructor is stored
character-for-character unchanged; the backslash-n normalization is
applied only to the environment-derived default. -/
theorem explicit_private_key_verbatim (p k e u : String)
    (cfg : FirebaseConfig)
    (h : mkFirebaseConfig p k e u = Except.ok cfg) :
    cfg.private_key = k := by
  rw [mkFirebaseConfig_ok_eq _ _ _ _ _ h]

/-- Witness for C10: an explicit key containing a literal backslash-n
is stored with the sequence intact, unequal to its normalization. -/
theorem explicit_private_key_verbatim_witness :
    (FirebaseConfig.mk "p" "a\\nb" "c" "d").private_key = "a\\nb" ∧
    "a\\nb" ≠ normalizePrivateKey "a\\nb" :=
  ⟨explicit_private_key_verbatim "p" "a\\nb" "c" "d" _ rfl, by decide⟩

end FeedbackLoop
